import Mathlib

/-!
# HopBop: verified model of the hotkey dispatcher and config loader

Shallow embedding of `src/main.py`. The event-tap callback `tap_callback`,
the debounce state (`_pressed_fired`, `_alt_down`) and the config loader
`load_mappings` are modelled as pure Lean functions over explicit state.
The Python `dict` built by `load_mappings` is modelled as an association
list with distinct keys, looked up with `List.lookup`; the Python `set`
`_pressed_fired` is modelled as a `Finset Nat`; the launch queue is
modelled by recording the list of bundle identifiers enqueued during one
callback invocation.
-/

namespace HopBop

/-- The Option/Alt modifier bit of the event flag field
(`kCGEventFlagMaskAlternate = 0x00080000`). -/
def kCGEventFlagMaskAlternate : Nat := 0x00080000

/-- `HOTKEY_KEYCODES = [18, 19, 20, 21, 23, 22, 26, 28, 25]` from main.py:
the macOS virtual keycodes of the digit keys 1..9, in slot order. -/
def HOTKEY_KEYCODES : List Nat := [18, 19, 20, 21, 23, 22, 26, 28, 25]

/-- The four event kinds `tap_callback` distinguishes (`type_` argument). -/
inductive EventType where
  | keyDown
  | keyUp
  | flagsChanged
  | tapDisabledByTimeout
  | tapDisabledByUserInput
deriving DecidableEq

/-- The data `tap_callback` reads from a `CGEvent`: the keycode field and
the flag field. -/
structure CGEvent where
  keycode : Nat
  flags : Nat
deriving DecidableEq

/-- The dispatcher-owned mutable state: `_pressed_fired` (the DebounceSet)
and `_alt_down` (the tracked ModifierState). -/
structure TapState where
  pressed_fired : Finset Nat
  alt_down : Bool
deriving DecidableEq

/-- What the callback returns to the OS: the event itself (forward
unmodified, `return event`) or `None` (suppress, the consumed signal). -/
inductive CallbackOutput where
  | event
  | consumed
deriving DecidableEq

/-- Everything observable about one invocation of `tap_callback`: the
return value, the dispatcher state afterwards, the bundle identifiers
enqueued on the launch queue (`_launch_q.put`) during the invocation, and
whether `CGEventTapEnable` was called. -/
structure CallbackResult where
  output : CallbackOutput
  state : TapState
  launched : List String
  reenabled : Bool
deriving DecidableEq

/-- Python truthiness of `flags & kCGEventFlagMaskAlternate`. -/
def altBit (flags : Nat) : Bool :=
  decide (flags &&& kCGEventFlagMaskAlternate ≠ 0)

/-- Shallow embedding of `tap_callback` (main.py lines 73-109).
`tapPort` models `_tap_port is not None`; `mapping` is the current dict
snapshot read under `MAPPING_LOCK`.  The Python truthiness test
`if bundle_id` is `bundle_id ≠ ""` on the `some` branch of the lookup. -/
def tap_callback (tapPort : Bool) (mapping : List (Nat × String))
    (s : TapState) (type_ : EventType) (event : CGEvent) : CallbackResult :=
  match type_ with
  | .tapDisabledByTimeout =>
      { output := .event, state := s, launched := [], reenabled := tapPort }
  | .tapDisabledByUserInput =>
      { output := .event, state := s, launched := [], reenabled := tapPort }
  | .flagsChanged =>
      let altNow := altBit event.flags
      let pf := if s.alt_down && !altNow then (∅ : Finset Nat) else s.pressed_fired
      { output := .event, state := { pressed_fired := pf, alt_down := altNow },
        launched := [], reenabled := false }
  | .keyDown =>
      if altBit event.flags then
        match List.lookup event.keycode mapping with
        | some bundle_id =>
            if bundle_id ≠ "" ∧ event.keycode ∉ s.pressed_fired then
              { output := .consumed,
                state := { s with pressed_fired := insert event.keycode s.pressed_fired },
                launched := [bundle_id], reenabled := false }
            else
              { output := .event, state := s, launched := [], reenabled := false }
        | none =>
            { output := .event, state := s, launched := [], reenabled := false }
      else
        { output := .event, state := s, launched := [], reenabled := false }
  | .keyUp =>
      let pf := if event.keycode ∈ s.pressed_fired
                then s.pressed_fired.erase event.keycode
                else s.pressed_fired
      { output := .event, state := { s with pressed_fired := pf },
        launched := [], reenabled := false }

/-- Python `str.isspace` characters relevant to `str.strip()`:
space, tab, newline, carriage return, vertical tab, form feed. -/
def pyWhitespace (c : Char) : Bool :=
  c.toNat = 32 || c.toNat = 9 || c.toNat = 10 || c.toNat = 13 ||
  c.toNat = 11 || c.toNat = 12

/-- Python `line.strip()`: drop whitespace from both ends. -/
def pyStrip (s : String) : String :=
  ⟨((s.data.dropWhile pyWhitespace).reverse.dropWhile pyWhitespace).reverse⟩

/-- `[line.strip() for line in f if line.strip()]` (main.py line 44):
strip every line, keep the non-blank ones, in file order. -/
def parseLines (fileLines : List String) : List String :=
  (fileLines.map pyStrip).filter (fun l => l ≠ "")

/-- `{code: bundle_id for code, bundle_id in zip(HOTKEY_KEYCODES, lines)}`
(main.py line 45), as an association list; `zip` truncates to the shorter
list and `HOTKEY_KEYCODES` has no duplicates, so this is exactly the dict. -/
def buildMapping (targets : List String) : List (Nat × String) :=
  HOTKEY_KEYCODES.zip targets

/-- Shallow embedding of `load_mappings` (main.py lines 40-51).
`readResult` is the outcome of `open(HOPBOP_CONFIG).readlines()`: `none`
when opening/reading raises (the `except` path, which leaves the global
`mapping` untouched), `some fileLines` on success. -/
def load_mappings (readResult : Option (List String))
    (old : List (Nat × String)) : List (Nat × String) :=
  match readResult with
  | none => old
  | some fileLines => buildMapping (parseLines fileLines)

/-! ## Helper lemmas -/

/-- `List.lookup` of the `i`-th key in a zip of distinct keys returns the
`i`-th value when there is one, and `none` when the value list is shorter. -/
theorem lookup_zip_getElem (l : List Nat) (l2 : List String) (hnd : l.Nodup)
    (i : Nat) (h1 : i < l.length) :
    (l.zip l2).lookup l[i] = l2[i]? := by
  induction l generalizing l2 i with
  | nil => simp at h1
  | cons a as ih =>
    cases l2 with
    | nil => simp [List.lookup]
    | cons b bs =>
      rcases List.nodup_cons.mp hnd with ⟨hna, hnd2⟩
      cases i with
      | zero => simp [List.lookup]
      | succ n =>
        have hn : n < as.length := Nat.lt_of_succ_lt_succ h1
        have hne : as[n] ≠ a := fun h => hna (h ▸ List.getElem_mem hn)
        have hb : (as[n] == a) = false := beq_eq_false_iff_ne.mpr hne
        simp only [List.zip_cons_cons, List.getElem_cons_succ,
          List.getElem?_cons_succ, List.lookup, hb]
        exact ih bs hnd2 n hn

/-- Zipping against a value list truncated to the key-list length changes
nothing: `zip` already ignores values beyond the key count. -/
theorem zip_take_len (l : List Nat) (l2 : List String) :
    l.zip (l2.take l.length) = l.zip l2 := by
  induction l generalizing l2 with
  | nil => simp
  | cons a as ih =>
    cases l2 with
    | nil => simp
    | cons b bs => simp [List.zip_cons_cons, ih]

/-- Every value of a mapping produced by a successful load is a stripped,
non-blank line: the loader never maps a keycode to the empty string, so
the Python truthiness test `if bundle_id` never rejects a loaded target. -/
theorem load_mappings_values_nonempty (fileLines : List String)
    (old : List (Nat × String)) (k : Nat) (v : String)
    (h : (k, v) ∈ load_mappings (some fileLines) old) : v ≠ "" := by
  simp only [load_mappings, buildMapping] at h
  have hv : v ∈ parseLines fileLines := (List.of_mem_zip h).2
  simp only [parseLines, List.mem_filter] at hv
  simpa using hv.2

/-! ## Claim theorems -/

/-- C1: for a keycode `k` mapped to a (non-blank) target `T`, a key-down
with the modifier bit set in its flag field, arriving while `k` is not in
the DebounceSet, enqueues exactly one LaunchRequest `T`, inserts `k` into
the DebounceSet and suppresses the event; an immediately repeated
modifier-held key-down on `k` before its key-up enqueues nothing and is
forwarded unmodified, leaving the state unchanged. -/
theorem keydown_fires_once_then_debounced (tapPort : Bool)
    (m : List (Nat × String)) (s : TapState) (k : Nat) (T : String) (f1 f2 : Nat)
    (hmap : List.lookup k m = some T) (hT : T ≠ "")
    (h1 : altBit f1 = true) (h2 : altBit f2 = true)
    (hk : k ∉ s.pressed_fired) :
    (tap_callback tapPort m s .keyDown ⟨k, f1⟩).launched = [T] ∧
    (tap_callback tapPort m s .keyDown ⟨k, f1⟩).output = .consumed ∧
    (tap_callback tapPort m s .keyDown ⟨k, f1⟩).state.pressed_fired
      = insert k s.pressed_fired ∧
    (tap_callback tapPort m
      (tap_callback tapPort m s .keyDown ⟨k, f1⟩).state .keyDown ⟨k, f2⟩).launched = [] ∧
    (tap_callback tapPort m
      (tap_callback tapPort m s .keyDown ⟨k, f1⟩).state .keyDown ⟨k, f2⟩).output = .event ∧
    (tap_callback tapPort m
      (tap_callback tapPort m s .keyDown ⟨k, f1⟩).state .keyDown ⟨k, f2⟩).state
      = (tap_callback tapPort m s .keyDown ⟨k, f1⟩).state := by
  have e1 : tap_callback tapPort m s .keyDown ⟨k, f1⟩ =
      { output := .consumed,
        state := { s with pressed_fired := insert k s.pressed_fired },
        launched := [T], reenabled := false } := by
    simp [tap_callback, h1, hmap, hT, hk]
  have e2 : tap_callback tapPort m { s with pressed_fired := insert k s.pressed_fired }
      .keyDown ⟨k, f2⟩ =
      { output := .event,
        state := { s with pressed_fired := insert k s.pressed_fired },
        launched := [], reenabled := false } := by
    simp [tap_callback, h2, hmap]
  rw [e1]
  simp [e2]

/-- C1 witness at keycode 18 mapped to "com.app.One". -/
theorem keydown_fires_once_then_debounced_witness :
    (tap_callback false [(18, "com.app.One")] ⟨∅, false⟩ .keyDown
       ⟨18, kCGEventFlagMaskAlternate⟩).launched = ["com.app.One"] :=
  (keydown_fires_once_then_debounced false [(18, "com.app.One")] ⟨∅, false⟩ 18
    "com.app.One" kCGEventFlagMaskAlternate kCGEventFlagMaskAlternate
    rfl (by decide) (by decide) (by decide) (by decide)).1

/-- C2 counterexample: an up→down modifier transition (tracked state up,
event flags carrying the modifier bit) does NOT empty the DebounceSet:
with prior content `{18}` the set still holds 18 afterwards. -/
theorem modifier_press_keeps_set_cx :
    (tap_callback false [] ⟨{18}, false⟩ .flagsChanged
      ⟨0, kCGEventFlagMaskAlternate⟩).state.pressed_fired ≠ (∅ : Finset Nat) := by
  decide

/-- C2 amended: on an up→down modifier transition the DebounceSet is left
exactly unchanged (so it is empty afterwards only if it was empty before);
the tracked ModifierState becomes down and the event is forwarded. -/
theorem modifier_press_preserves_set (tapPort : Bool) (m : List (Nat × String))
    (s : TapState) (kc f : Nat)
    (hup : s.alt_down = false) (hf : altBit f = true) :
    (tap_callback tapPort m s .flagsChanged ⟨kc, f⟩).state.pressed_fired
      = s.pressed_fired ∧
    (tap_callback tapPort m s .flagsChanged ⟨kc, f⟩).state.alt_down = true ∧
    (tap_callback tapPort m s .flagsChanged ⟨kc, f⟩).output = .event ∧
    (tap_callback tapPort m s .flagsChanged ⟨kc, f⟩).launched = [] := by
  simp [tap_callback, hup, hf]

/-- C2 amended witness: pressing the modifier with `{18}` pending keeps `{18}`. -/
theorem modifier_press_preserves_set_witness :
    (tap_callback false [] ⟨{18}, false⟩ .flagsChanged
      ⟨0, kCGEventFlagMaskAlternate⟩).state.pressed_fired = {18} :=
  (modifier_press_preserves_set false [] ⟨{18}, false⟩ 0 kCGEventFlagMaskAlternate
    rfl (by decide)).1

/-- C3: the callback is a total function whose only outputs are "forward
the event" and "consume the event", and a failed mapping lookup on a
modifier-held key-down is treated as no match: the event is forwarded
unmodified, the state is untouched and nothing is enqueued. -/
theorem callback_total_and_no_match_forwards (tapPort : Bool)
    (m : List (Nat × String)) (s : TapState) (e : CGEvent)
    (hl : List.lookup e.keycode m = none) :
    (∀ (t : EventType) (e2 : CGEvent),
       (tap_callback tapPort m s t e2).output = .event ∨
       (tap_callback tapPort m s t e2).output = .consumed) ∧
    (tap_callback tapPort m s .keyDown e).output = .event ∧
    (tap_callback tapPort m s .keyDown e).state = s ∧
    (tap_callback tapPort m s .keyDown e).launched = [] := by
  have e0 : tap_callback tapPort m s .keyDown e =
      { output := .event, state := s, launched := [], reenabled := false } := by
    by_cases hf : altBit e.flags = true <;> simp [tap_callback, hf, hl]
  refine ⟨fun t e2 => ?_, ?_, ?_, ?_⟩
  · cases h : (tap_callback tapPort m s t e2).output
    · exact Or.inl rfl
    · exact Or.inr rfl
  all_goals rw [e0]

/-- C3 witness: key-down on an unmapped keycode with the modifier held. -/
theorem callback_total_and_no_match_forwards_witness :
    (tap_callback false [] ⟨∅, false⟩ .keyDown
      ⟨5, kCGEventFlagMaskAlternate⟩).output = .event :=
  (callback_total_and_no_match_forwards false [] ⟨∅, false⟩
    ⟨5, kCGEventFlagMaskAlternate⟩ rfl).2.1

/-- C4: when the config source cannot be opened or read (the `except`
path of `load_mappings`), the previously installed mapping is returned
exactly unchanged, for every prior mapping. -/
theorem load_failure_keeps_previous_mapping (old : List (Nat × String)) :
    load_mappings none old = old := rfl

/-- C5: a successful load builds the mapping positionally: there are nine
hotkey keycodes; for each position `i`, looking up the `i`-th keycode
yields the `i`-th stripped non-blank line when it exists and nothing when
the config has fewer lines; and lines beyond the nine keycodes are
ignored (the result equals the one built from the first nine lines). -/
theorem load_success_positional (fileLines : List String)
    (old : List (Nat × String)) :
    HOTKEY_KEYCODES.length = 9 ∧
    (∀ i, (hi : i < HOTKEY_KEYCODES.length) →
       (load_mappings (some fileLines) old).lookup HOTKEY_KEYCODES[i]
         = (parseLines fileLines)[i]?) ∧
    load_mappings (some fileLines) old
      = buildMapping ((parseLines fileLines).take HOTKEY_KEYCODES.length) :=
  ⟨rfl,
   fun i hi =>
     lookup_zip_getElem HOTKEY_KEYCODES (parseLines fileLines) (by decide) i hi,
   (zip_take_len HOTKEY_KEYCODES (parseLines fileLines)).symm⟩

/-- C5 witness: two lines (one blank in between, one padded) map slot 2's
keycode 19 to the trimmed second non-blank line. -/
theorem load_success_positional_witness :
    (load_mappings (some ["com.app.One\n", "  \n", " com.app.Two \n"]) []).lookup 19
      = some "com.app.Two" := by
  have h := (load_success_positional ["com.app.One\n", "  \n", " com.app.Two \n"]
    []).2.1 1 (by decide)
  exact h.trans (by decide)

/-- C6: a modifier-held key-down on a keycode absent from the mapping
enqueues nothing, leaves the whole dispatcher state unchanged and is
forwarded unmodified. -/
theorem unmapped_keydown_forwards (tapPort : Bool) (m : List (Nat × String))
    (s : TapState) (k f : Nat)
    (hl : List.lookup k m = none) (hf : altBit f = true) :
    (tap_callback tapPort m s .keyDown ⟨k, f⟩).launched = [] ∧
    (tap_callback tapPort m s .keyDown ⟨k, f⟩).state = s ∧
    (tap_callback tapPort m s .keyDown ⟨k, f⟩).output = .event := by
  simp [tap_callback, hl, hf]

/-- C6 witness: keycode 19 is not in a mapping that only maps 18. -/
theorem unmapped_keydown_forwards_witness :
    (tap_callback false [(18, "com.app.One")] ⟨∅, false⟩ .keyDown
       ⟨19, kCGEventFlagMaskAlternate⟩).launched = [] :=
  (unmapped_keydown_forwards false [(18, "com.app.One")] ⟨∅, false⟩ 19
    kCGEventFlagMaskAlternate (by decide) (by decide)).1

/-- C7: a down→up modifier transition clears the entire DebounceSet, and
after a subsequent modifier press a modifier-held key-down on a keycode
`k` that had previously fired (no intervening key-up) enqueues a new
LaunchRequest and is suppressed. -/
theorem modifier_release_clears_debounce (tapPort : Bool)
    (m : List (Nat × String)) (s : TapState) (k c1 c2 : Nat) (T : String)
    (fUp fDown fKey : Nat)
    (hwas : s.alt_down = true) (hUp : altBit fUp = false)
    (hDown : altBit fDown = true) (hKey : altBit fKey = true)
    (hmap : List.lookup k m = some T) (hT : T ≠ "")
    (hk : k ∈ s.pressed_fired) :
    (tap_callback tapPort m s .flagsChanged ⟨c1, fUp⟩).state.pressed_fired
      = (∅ : Finset Nat) ∧
    (tap_callback tapPort m
       (tap_callback tapPort m
         (tap_callback tapPort m s .flagsChanged ⟨c1, fUp⟩).state
         .flagsChanged ⟨c2, fDown⟩).state
       .keyDown ⟨k, fKey⟩).launched = [T] ∧
    (tap_callback tapPort m
       (tap_callback tapPort m
         (tap_callback tapPort m s .flagsChanged ⟨c1, fUp⟩).state
         .flagsChanged ⟨c2, fDown⟩).state
       .keyDown ⟨k, fKey⟩).output = .consumed := by
  have e1 : tap_callback tapPort m s .flagsChanged ⟨c1, fUp⟩ =
      { output := .event, state := { pressed_fired := ∅, alt_down := false },
        launched := [], reenabled := false } := by
    simp [tap_callback, hwas, hUp]
  have e2 : tap_callback tapPort m ⟨∅, false⟩ .flagsChanged ⟨c2, fDown⟩ =
      { output := .event, state := { pressed_fired := ∅, alt_down := true },
        launched := [], reenabled := false } := by
    simp [tap_callback, hDown]
  have e3 : tap_callback tapPort m ⟨∅, true⟩ .keyDown ⟨k, fKey⟩ =
      { output := .consumed,
        state := { pressed_fired := insert k (∅ : Finset Nat), alt_down := true },
        launched := [T], reenabled := false } := by
    simp [tap_callback, hKey, hmap, hT]
  rw [e1]
  simp [e2, e3]

/-- C7 witness: release the modifier with 18 pending, press it again, then
key-down 18: a new launch of "com.app.One" is enqueued. -/
theorem modifier_release_clears_debounce_witness :
    (tap_callback false [(18, "com.app.One")]
       (tap_callback false [(18, "com.app.One")]
         (tap_callback false [(18, "com.app.One")] ⟨{18}, true⟩
           .flagsChanged ⟨0, 0⟩).state
         .flagsChanged ⟨0, kCGEventFlagMaskAlternate⟩).state
       .keyDown ⟨18, kCGEventFlagMaskAlternate⟩).launched = ["com.app.One"] :=
  (modifier_release_clears_debounce false [(18, "com.app.One")] ⟨{18}, true⟩ 18 0 0
    "com.app.One" 0 kCGEventFlagMaskAlternate kCGEventFlagMaskAlternate
    rfl (by decide) (by decide) (by decide) rfl (by decide) (by decide)).2.1

/-- C8: a key-up on `k` removes `k` from the DebounceSet (a no-op when `k`
is absent), forwards the event and enqueues nothing; a subsequent
modifier-held key-down on `k`, still mapped to `T`, enqueues a second
LaunchRequest `T` and is suppressed. -/
theorem keyup_releases_debounce (tapPort : Bool) (m : List (Nat × String))
    (s : TapState) (k : Nat) (T : String) (fUp fKey : Nat)
    (hmap : List.lookup k m = some T) (hT : T ≠ "") (hKey : altBit fKey = true) :
    (tap_callback tapPort m s .keyUp ⟨k, fUp⟩).state.pressed_fired
      = s.pressed_fired.erase k ∧
    (k ∉ s.pressed_fired →
      (tap_callback tapPort m s .keyUp ⟨k, fUp⟩).state.pressed_fired
        = s.pressed_fired) ∧
    (tap_callback tapPort m s .keyUp ⟨k, fUp⟩).output = .event ∧
    (tap_callback tapPort m s .keyUp ⟨k, fUp⟩).launched = [] ∧
    (tap_callback tapPort m (tap_callback tapPort m s .keyUp ⟨k, fUp⟩).state
       .keyDown ⟨k, fKey⟩).launched = [T] ∧
    (tap_callback tapPort m (tap_callback tapPort m s .keyUp ⟨k, fUp⟩).state
       .keyDown ⟨k, fKey⟩).output = .consumed := by
  have e1 : tap_callback tapPort m s .keyUp ⟨k, fUp⟩ =
      { output := .event,
        state := { s with pressed_fired := s.pressed_fired.erase k },
        launched := [], reenabled := false } := by
    by_cases h : k ∈ s.pressed_fired
    · simp [tap_callback, h]
    · simp [tap_callback, h, Finset.erase_eq_of_not_mem h]
  have e2 : tap_callback tapPort m
      { s with pressed_fired := s.pressed_fired.erase k } .keyDown ⟨k, fKey⟩ =
      { output := .consumed,
        state := { s with pressed_fired := insert k (s.pressed_fired.erase k) },
        launched := [T], reenabled := false } := by
    simp [tap_callback, hKey, hmap, hT, Finset.not_mem_erase]
  rw [e1]
  refine ⟨rfl, fun h => by simp [Finset.erase_eq_of_not_mem h], rfl, rfl, ?_, ?_⟩ <;>
    simp [e2]

/-- C8 witness: after key-up on fired 18, a modifier-held key-down on 18
fires again. -/
theorem keyup_releases_debounce_witness :
    (tap_callback false [(18, "com.app.One")]
       (tap_callback false [(18, "com.app.One")] ⟨{18}, true⟩ .keyUp ⟨18, 0⟩).state
       .keyDown ⟨18, kCGEventFlagMaskAlternate⟩).launched = ["com.app.One"] :=
  (keyup_releases_debounce false [(18, "com.app.One")] ⟨{18}, true⟩ 18 "com.app.One"
    0 kCGEventFlagMaskAlternate rfl (by decide) (by decide)).2.2.2.2.1

/-- C9: on key-down events the event's own flag field is authoritative:
two runs differing only in the tracked ModifierState boolean produce the
same return value, the same DebounceSet and the same enqueues, and the
tracked boolean itself passes through unchanged. -/
theorem keydown_independent_of_tracked_modifier (tapPort : Bool)
    (m : List (Nat × String)) (pf : Finset Nat) (b1 b2 : Bool) (k f : Nat) :
    (tap_callback tapPort m ⟨pf, b1⟩ .keyDown ⟨k, f⟩).output
      = (tap_callback tapPort m ⟨pf, b2⟩ .keyDown ⟨k, f⟩).output ∧
    (tap_callback tapPort m ⟨pf, b1⟩ .keyDown ⟨k, f⟩).launched
      = (tap_callback tapPort m ⟨pf, b2⟩ .keyDown ⟨k, f⟩).launched ∧
    (tap_callback tapPort m ⟨pf, b1⟩ .keyDown ⟨k, f⟩).state.pressed_fired
      = (tap_callback tapPort m ⟨pf, b2⟩ .keyDown ⟨k, f⟩).state.pressed_fired ∧
    (tap_callback tapPort m ⟨pf, b1⟩ .keyDown ⟨k, f⟩).state.alt_down = b1 := by
  by_cases hf : altBit f = true
  · cases hl : List.lookup k m with
    | none => simp [tap_callback, hf, hl]
    | some T =>
        by_cases hc : T ≠ "" ∧ k ∉ pf <;> simp [tap_callback, hf, hl, hc]
  · simp [tap_callback, hf]

/-- C10: the callback suppresses an event exactly when it enqueued one
LaunchRequest in that invocation, it never enqueues more than one, and
every non-key-down event (key-up, modifier-changed, tap-disabled) is
forwarded and enqueues nothing. -/
theorem suppress_iff_enqueued (tapPort : Bool) (m : List (Nat × String))
    (s : TapState) (t : EventType) (e : CGEvent) :
    ((tap_callback tapPort m s t e).output = .consumed ↔
      (tap_callback tapPort m s t e).launched.length = 1) ∧
    (tap_callback tapPort m s t e).launched.length ≤ 1 ∧
    (t ≠ .keyDown →
      (tap_callback tapPort m s t e).output = .event ∧
      (tap_callback tapPort m s t e).launched = []) := by
  cases t with
  | keyDown =>
      by_cases hf : altBit e.flags = true
      · cases hl : List.lookup e.keycode m with
        | none => simp [tap_callback, hf, hl]
        | some T =>
            by_cases hc : T ≠ "" ∧ e.keycode ∉ s.pressed_fired <;>
              simp [tap_callback, hf, hl, hc]
      · simp [tap_callback, hf]
  | keyUp => simp [tap_callback]
  | flagsChanged => simp [tap_callback]
  | tapDisabledByTimeout => simp [tap_callback]
  | tapDisabledByUserInput => simp [tap_callback]

/-- C10 witness: a key-up event is forwarded and enqueues nothing. -/
theorem suppress_iff_enqueued_witness :
    (tap_callback false [] ⟨∅, false⟩ .keyUp ⟨18, 0⟩).output = .event ∧
    (tap_callback false [] ⟨∅, false⟩ .keyUp ⟨18, 0⟩).launched = [] :=
  (suppress_iff_enqueued false [] ⟨∅, false⟩ .keyUp ⟨18, 0⟩).2.2 (by decide)

end HopBop
